import Mathlib

/-!
Shallow embedding of the SkillBridge API core (bootcamps, courses, reviews,
users): the error-translating middleware (`src/middleware/error.js`), the
users controller (`src/controllers/users.js`), the Course and Review model
statics and lifecycle hooks (course and review schema files), the unique
review index, and — where the middleware source is not part of the tree —
models built from the specification (query pager, role gate, ownership gate).

Numeric values that MongoDB computes as doubles (`$avg`) are embedded as
rationals; record identities are natural numbers standing in for ObjectIds.
Schema fields that only matter for input validation (titles, descriptions,
weeks, …) are elided except where a claim mentions them.
-/

namespace SkillBridge

/-- A JavaScript error object as seen by the error middleware: its `name`,
optional Mongo driver `code`, optional `statusCode` (set by `ErrorResponse`),
its `message`, and the messages of `error.errors` used by the
ValidationError branch. -/
structure JsError where
  name : String
  code : Option Nat
  statusCode : Option Nat
  message : String
  valMessages : List String
deriving Repr, DecidableEq

/-- The `error` field of a JSON error body: either a plain string or the
array of validation messages produced by the ValidationError branch. -/
inductive ErrMsg where
  | str : String → ErrMsg
  | list : List String → ErrMsg
deriving Repr, DecidableEq

/-- An HTTP JSON response envelope as produced for error and simple success
paths: status code, `success` flag, and optional `error` payload. -/
structure Response where
  status : Nat
  success : Bool
  error : Option ErrMsg
deriving Repr, DecidableEq

/-- JavaScript `errors.message || "Server Error"`: an empty string is falsy
and falls back to the default; a (possibly empty) array is truthy. -/
def msgOrDefault : ErrMsg → ErrMsg
  | ErrMsg.str s => if s = "" then ErrMsg.str "Server Error" else ErrMsg.str s
  | ErrMsg.list l => ErrMsg.list l

/-- `errorHandler` from `src/middleware/error.js`: starts from the incoming
error's `statusCode`/`message`, then rewrites it for a Mongoose bad-ObjectId
(`CastError` → 404 "Resource not found"), a Mongo duplicate key
(`code 11000` → 400 "Duplicate field value entered"), and a Mongoose
`ValidationError` (→ 400 with the per-field messages); finally responds with
`statusCode || 500` and `{ success: false, error: message || "Server Error" }`. -/
def errorHandler (e : JsError) : Response :=
  let errs : Option Nat × ErrMsg := (e.statusCode, ErrMsg.str e.message)
  let errs := if e.name = "CastError" then (some 404, ErrMsg.str "Resource not found") else errs
  let errs := if e.code = some 11000 then (some 400, ErrMsg.str "Duplicate field value entered") else errs
  let errs := if e.name = "ValidationError" then (some 400, ErrMsg.list e.valMessages) else errs
  { status := errs.1.getD 500, success := false, error := some (msgOrDefault errs.2) }

/-- The error Mongoose raises when a path parameter cannot be cast to an
ObjectId: `name` is "CastError", no driver code, no `statusCode`, and a raw
storage-layer message describing the failed cast. -/
def castError (rawMessage : String) : JsError :=
  { name := "CastError", code := none, statusCode := none
    message := rawMessage, valMessages := [] }

/-- The Mongo driver error raised when an insert violates a unique index:
driver `code` 11000 with a raw duplicate-key message. -/
def dupKeyError : JsError :=
  { name := "MongoServerError", code := some 11000, statusCode := none
    message := "E11000 duplicate key error collection", valMessages := [] }

/-- `new ErrorResponse("Resource not found", 404)` as built by the users
controller before handing off to `errorHandler`. -/
def resourceNotFoundError : JsError :=
  { name := "Error", code := none, statusCode := some 404
    message := "Resource not found", valMessages := [] }

/-- `new ErrorResponse("Not authorized to access this route", 401)` as used
by the ownership gate on owned resources. -/
def notAuthorizedError : JsError :=
  { name := "Error", code := none, statusCode := some 401
    message := "Not authorized to access this route", valMessages := [] }

/-- A bootcamp record: identity plus the two denormalized aggregates kept by
the maintainers. `none` models the field being absent/unset on the document. -/
structure Bootcamp where
  id : Nat
  averageCost : Option ℚ
  averageRating : Option ℚ
deriving Repr, DecidableEq

/-- A course document: identity, the ObjectId of its bootcamp, and the
tuition cost aggregated by `getAverageCost`. -/
structure Course where
  id : Nat
  bootcamp : Nat
  tuition : ℚ
deriving Repr, DecidableEq

/-- A review document: identity, its bootcamp, its author (`user`), its
title and the rating aggregated by `getAverageRating`. -/
structure Review where
  id : Nat
  bootcamp : Nat
  user : Nat
  title : String
  rating : ℚ
deriving Repr, DecidableEq

/-- The durable store: the three collections touched by the claims. -/
structure DB where
  bootcamps : List Bootcamp
  courses : List Course
  reviews : List Review
deriving Repr, DecidableEq

/-- `Bootcamp.findById` on the bootcamps collection. -/
def findBootcamp (db : DB) (bid : Nat) : Option Bootcamp :=
  db.bootcamps.find? (fun b => b.id == bid)

/-- `$avg` over a list of values: the arithmetic mean (sum over length). -/
def listMean (l : List ℚ) : ℚ := l.sum / l.length

/-- The `$match`/`$group` aggregation pipeline of `getAverageCost`: the
tuitions of the courses whose `bootcamp` field equals the given id. -/
def tuitionsFor (db : DB) (bid : Nat) : List ℚ :=
  (db.courses.filter (fun c => c.bootcamp == bid)).map Course.tuition

/-- The `$match`/`$group` aggregation pipeline of `getAverageRating`: the
ratings of the reviews whose `bootcamp` field equals the given id. -/
def ratingsFor (db : DB) (bid : Nat) : List ℚ :=
  (db.reviews.filter (fun r => r.bootcamp == bid)).map Review.rating

/-- `Math.ceil(x / 10) * 10`: round up to the nearest multiple of 10. -/
def ceilTo10 (q : ℚ) : ℚ := ((⌈q / 10⌉ : ℤ) * 10 : ℤ)

/-- `Bootcamp.findByIdAndUpdate(bid, { averageCost: v })`: a no-op when no
bootcamp has that id. -/
def setAverageCost (db : DB) (bid : Nat) (v : Option ℚ) : DB :=
  { db with bootcamps :=
      db.bootcamps.map (fun b => if b.id == bid then { b with averageCost := v } else b) }

/-- `Bootcamp.findByIdAndUpdate(bid, { averageRating: v })`. -/
def setAverageRating (db : DB) (bid : Nat) (v : Option ℚ) : DB :=
  { db with bootcamps :=
      db.bootcamps.map (fun b => if b.id == bid then { b with averageRating := v } else b) }

/-- `CourseSchema.statics.getAverageCost` (course model file): aggregate the
matching tuitions; if the pipeline returned a group, store
`Math.ceil(avg / 10) * 10` on the bootcamp; otherwise only log
"No courses found" — the database is left untouched. -/
def getAverageCost (db : DB) (bid : Nat) : DB :=
  let ts := tuitionsFor db bid
  if ts.length > 0 then setAverageCost db bid (some (ceilTo10 (listMean ts)))
  else db

/-- `ReviewSchema.statics.getAverageRating` (review model file): aggregate
the matching ratings; if the pipeline returned a group, store the raw mean
on the bootcamp; otherwise only log "No ratings found". -/
def getAverageRating (db : DB) (bid : Nat) : DB :=
  let rs := ratingsFor db bid
  if rs.length > 0 then setAverageRating db bid (some (listMean rs))
  else db

/-- `Course.create`/save followed by the `post("save")` hook, which calls
`getAverageCost(this.bootcamp)`. -/
def createCourse (db : DB) (c : Course) : DB :=
  let db1 := { db with courses := db.courses ++ [c] }
  getAverageCost db1 c.bootcamp

/-- Removing a course: the `pre("remove")` hook calls
`getAverageCost(this.bootcamp)` while the document is still in the
collection, and only then is the document removed. No recomputation runs
after the removal. -/
def removeCourse (db : DB) (cid : Nat) : DB :=
  match db.courses.find? (fun c => c.id == cid) with
  | none => db
  | some c =>
      let db1 := getAverageCost db c.bootcamp
      { db1 with courses := db1.courses.filter (fun x => !(x.id == cid)) }

/-- Inserting a review: the unique compound index
`ReviewSchema.index({ bootcamp: 1, user: 1 }, { unique: true })` makes the
store reject a second review by the same (bootcamp, user) pair with a
duplicate-key error (driver code 11000); otherwise the document is appended
(the `post("save")` hook then recomputes the rating aggregate). -/
def insertReview (db : DB) (r : Review) : Except JsError DB :=
  if db.reviews.any (fun x => x.bootcamp == r.bootcamp && x.user == r.user) then
    Except.error dupKeyError
  else
    let db1 := { db with reviews := db.reviews ++ [r] }
    Except.ok (getAverageRating db1 r.bootcamp)

/-- Removing a review: the `pre("remove")` hook calls
`getAverageRating(this.bootcamp)` before the document leaves the
collection. -/
def removeReview (db : DB) (rid : Nat) : DB :=
  match db.reviews.find? (fun r => r.id == rid) with
  | none => db
  | some r =>
      let db1 := getAverageRating db r.bootcamp
      { db1 with reviews := db1.reviews.filter (fun x => !(x.id == rid)) }

/-- One side of the pagination metadata: a page number and the page size. -/
structure PageRef where
  page : Nat
  limit : Nat
deriving Repr, DecidableEq

/-- The `pagination` object of a listing response; `none` models the key
being omitted from the object entirely. -/
structure PageInfo where
  next : Option PageRef
  prev : Option PageRef
deriving Repr, DecidableEq

/-- Modelled from the spec: `middleware/advancedResults.js` (the Query
Compiler & Pager) is not part of the tree; per the spec, pagination computes
`skip = (page-1)*limit`, issues a total count over the filter, and emits
`next = {page: page+1, limit}` iff `skip + limit < total` and
`previous = {page: page-1, limit}` iff `page > 1`, omitting each side
otherwise. -/
def buildPageInfo (page limit total : Nat) : PageInfo :=
  let skip := (page - 1) * limit
  { next := if skip + limit < total then some { page := page + 1, limit := limit } else none
    prev := if 1 < page then some { page := page - 1, limit := limit } else none }

/-- The authenticated account attached to the request by `protect`:
identity and role. -/
structure AuthUser where
  id : Nat
  role : String
deriving Repr, DecidableEq

/-- Modelled from the spec: `middleware/auth.js` (`authorize`) is not part
of the tree; per the spec, an authenticated account whose role is not in the
route's allow-list fails with 403 and message
`User role <role> is not authorized to access this route` (handed to the
error middleware as an `ErrorResponse`), and passes through (`none`)
otherwise. -/
def authorize (roles : List String) (user : AuthUser) : Option JsError :=
  if roles.contains user.role then none
  else some { name := "Error", code := none, statusCode := some 403
              message := "User role " ++ user.role ++ " is not authorized to access this route"
              valMessages := [] }

/-- The users router mounts `authorize("admin")` for every route
(`router.use(authorize("admin"))` in the users route file), so `GET /users`
short-circuits with the translated error response for any non-admin. -/
def getUsersGate (user : AuthUser) : Option Response :=
  (authorize ["admin"] user).map errorHandler

/-- Modelled from the spec: `controllers/reviews.js` is not part of the
tree; per the spec's ownership gate, an update/delete on a review is allowed
when the account's identity equals the review's owner identity or the
account's role is administrator. -/
def ownsOrAdmin (user : AuthUser) (ownerId : Nat) : Bool :=
  user.id == ownerId || user.role == "admin"

/-- Modelled from the spec: the review update handler of
`controllers/reviews.js` is not part of the tree; it looks the review up,
404s when absent, rejects a requester that neither owns the review nor is an
administrator with `ErrorResponse("Not authorized to access this route", 401)`
(translated by `errorHandler`), and otherwise updates the document. -/
def updateReviewTitle (db : DB) (user : AuthUser) (rid : Nat) (title : String) :
    Response × DB :=
  match db.reviews.find? (fun r => r.id == rid) with
  | none =>
      (errorHandler { name := "Error", code := none, statusCode := some 404
                      message := "No review with the id of " ++ toString rid
                      valMessages := [] }, db)
  | some r =>
      if ownsOrAdmin user r.user then
        ({ status := 200, success := true, error := none },
         { db with reviews :=
             db.reviews.map (fun x => if x.id == rid then { x with title := title } else x) })
      else (errorHandler notAuthorizedError, db)

/-- Modelled from the spec: the review delete handler of
`controllers/reviews.js` is not part of the tree; same lookup and ownership
gate as the update handler, then the document is removed (firing the
`pre("remove")` aggregate hook). -/
def deleteReviewOp (db : DB) (user : AuthUser) (rid : Nat) : Response × DB :=
  match db.reviews.find? (fun r => r.id == rid) with
  | none =>
      (errorHandler { name := "Error", code := none, statusCode := some 404
                      message := "No review with the id of " ++ toString rid
                      valMessages := [] }, db)
  | some r =>
      if ownsOrAdmin user r.user then
        ({ status := 200, success := true, error := none }, removeReview db rid)
      else (errorHandler notAuthorizedError, db)

/-- A user document as stored in the users collection. -/
structure UserRec where
  id : Nat
  name : String
  email : String
  role : String
deriving Repr, DecidableEq

/-- The users collection. -/
structure UsersDB where
  users : List UserRec
deriving Repr, DecidableEq

/-- `User.findById` on the users collection. -/
def findUserById (db : UsersDB) (uid : Nat) : Option UserRec :=
  db.users.find? (fun u => u.id == uid)

/-- The response of `exports.getUser`: status, `success` flag and a `data`
field that is the found document or `null` (`none`). -/
structure GetUserResp where
  status : Nat
  success : Bool
  data : Option UserRec
deriving Repr, DecidableEq

/-- `exports.getUser` from `src/controllers/users.js`: it responds 200 with
`data: user` unconditionally — `findById` yielding `null` is passed through
as `data: null`, with no not-found check. -/
def getUser (db : UsersDB) (uid : Nat) : GetUserResp :=
  { status := 200, success := true, data := findUserById db uid }

/-- `exports.deleteUser` from `src/controllers/users.js`: it looks the user
up first and forwards `ErrorResponse("Resource not found", 404)` to the
error middleware when absent; otherwise it deletes the document and responds
200. -/
def deleteUser (db : UsersDB) (uid : Nat) : Response × UsersDB :=
  match findUserById db uid with
  | none => (errorHandler resourceNotFoundError, db)
  | some _ =>
      ({ status := 200, success := true, error := none },
       { users := db.users.filter (fun u => !(u.id == uid)) })

/-- The result of an asynchronous step: a resolved value or a rejection
carrying an error message. -/
inductive Outcome (α : Type) where
  | ok : α → Outcome α
  | fail : String → Outcome α
deriving Repr, DecidableEq

/-- `getAverageCost` with its storage operations made explicit, following
the control flow of the course model file: the aggregation is awaited
outside the `try`; inside the `try`, a non-empty group list leads to the
`findByIdAndUpdate` call whose rejection is caught and logged
(`console.log(error)`), and an empty group list only logs
"No courses found"; a vanished parent is not an error at all
(`findByIdAndUpdate` resolves with `null`). -/
def getAverageCostRun (agg : Outcome (List ℚ)) (upd : Outcome Unit) :
    Outcome (List String) :=
  match agg with
  | Outcome.fail e => Outcome.fail e
  | Outcome.ok costs =>
      if costs.length > 0 then
        match upd with
        | Outcome.ok _ => Outcome.ok []
        | Outcome.fail e => Outcome.ok [e]
      else Outcome.ok ["No courses found"]

/-- The `post("save")` hook of the course model: it invokes
`getAverageCost(this.bootcamp)` without awaiting it, so the hook's outcome
is computed and discarded — the save's own result is returned untouched. -/
def saveWithHook (saveRes : Outcome Course) (agg : Outcome (List ℚ))
    (upd : Outcome Unit) : Outcome Course :=
  let _hookOutcome := getAverageCostRun agg upd
  saveRes

/-- Mapping a pointwise id-preserving update over the bootcamps list
commutes with looking the updated id up via `find?`. -/
theorem find_map_update (g : Bootcamp → Bootcamp) (hg : ∀ x, (g x).id = x.id)
    (bid : Nat) :
    ∀ (l : List Bootcamp) (b : Bootcamp),
      l.find? (fun x => x.id == bid) = some b →
      (l.map fun x => if x.id == bid then g x else x).find? (fun x => x.id == bid) =
        some (g b)
  | [], b, h => by simp at h
  | a :: t, b, h => by
      by_cases ha : (a.id == bid) = true
      · rw [@List.find?_cons_of_pos _ (fun x => x.id == bid) a t ha] at h
        injection h with h2
        subst h2
        have hga : ((g a).id == bid) = true := by rw [hg]; exact ha
        rw [List.map_cons, if_pos ha]
        exact @List.find?_cons_of_pos _ (fun x => x.id == bid) (g a) _ hga
      · rw [@List.find?_cons_of_neg _ (fun x => x.id == bid) a t ha] at h
        rw [List.map_cons, if_neg ha,
          @List.find?_cons_of_neg _ (fun x => x.id == bid) a _ ha]
        exact find_map_update g hg bid t b h

/-- The rating hook only writes aggregate fields: the reviews collection is
untouched by `getAverageRating`. -/
theorem getAverageRating_reviews (db : DB) (bid : Nat) :
    (getAverageRating db bid).reviews = db.reviews := by
  by_cases h : (ratingsFor db bid).length > 0 <;>
    simp [getAverageRating, setAverageRating, h]

/-- C1: for every compiled listing request, the pagination metadata contains
`next = {page+1, limit}` exactly when `skip + limit < total`, contains
`prev = {page-1, limit}` exactly when `page > 1`, and omits a side (`none`)
exactly when its condition fails. -/
theorem pageinfo_next_prev_iff :
    ∀ page limit total : Nat,
      ((buildPageInfo page limit total).next = some { page := page + 1, limit := limit } ↔
        (page - 1) * limit + limit < total) ∧
      ((buildPageInfo page limit total).next = none ↔
        ¬ (page - 1) * limit + limit < total) ∧
      ((buildPageInfo page limit total).prev = some { page := page - 1, limit := limit } ↔
        1 < page) ∧
      ((buildPageInfo page limit total).prev = none ↔ ¬ 1 < page) := by
  intro p l t
  simp only [buildPageInfo]
  refine ⟨?_, ?_, ?_, ?_⟩ <;> split <;> simp_all

/-- C9: a malformed path identifier surfaces as a Mongoose `CastError`, and
the error middleware translates every such error — whatever raw message the
storage layer produced — to status 404 with `success: false` and the fixed
message "Resource not found": never a 400 validation response and never the
raw storage-layer message. -/
theorem castError_maps_to_404 :
    ∀ rawMessage : String,
      errorHandler (castError rawMessage) =
        { status := 404, success := false
          error := some (ErrMsg.str "Resource not found") } := by
  intro m
  rfl

/-- C4: the aggregate recomputation never fails the child mutation that
triggered it: the hook computes the maintainer's outcome without awaiting
it, so the save's result is returned unchanged for every combination of
storage outcomes; and when the aggregation resolves, the maintainer itself
always resolves too — a rejected parent update is caught and turned into a
log entry, never propagated. -/
theorem maintainer_never_fails_trigger :
    ∀ (saveRes : Outcome Course) (agg : Outcome (List ℚ)) (upd : Outcome Unit),
      saveWithHook saveRes agg upd = saveRes ∧
      (∀ costs : List ℚ, ∃ logs : List String,
        getAverageCostRun (Outcome.ok costs) upd = Outcome.ok logs) := by
  intro s agg upd
  refine ⟨rfl, ?_⟩
  intro costs
  by_cases h : costs.length > 0
  · cases upd with
    | ok u => exact ⟨[], by simp [getAverageCostRun, h]⟩
    | fail e => exact ⟨[e], by simp [getAverageCostRun, h]⟩
  · exact ⟨["No courses found"], by simp [getAverageCostRun, h]⟩

/-- C10: a well-formed identifier that resolves to no user is treated
asymmetrically: `getUser` responds 200 / `success: true` with `data: null`,
while `deleteUser` responds 404 with error "Resource not found" and leaves
the collection unchanged. -/
theorem getUser_null_deleteUser_404 (db : UsersDB) (uid : Nat)
    (h : findUserById db uid = none) :
    getUser db uid = { status := 200, success := true, data := none } ∧
    deleteUser db uid =
      ({ status := 404, success := false
         error := some (ErrMsg.str "Resource not found") }, db) := by
  constructor
  · simp [getUser, h]
  · simp [deleteUser, h]
    rfl

/-- Witness for C10 at the empty collection and identifier 0. -/
theorem getUser_null_deleteUser_404_witness :
    getUser { users := [] } 0 = { status := 200, success := true, data := none } ∧
    deleteUser { users := [] } 0 =
      ({ status := 404, success := false
         error := some (ErrMsg.str "Resource not found") }, { users := [] }) :=
  getUser_null_deleteUser_404 { users := [] } 0 rfl

/-- C2: whenever the cost maintainer runs for a bootcamp with at least one
course, the stored `averageCost` is the arithmetic mean of the children's
tuitions rounded up to the nearest multiple of 10. -/
theorem getAverageCost_stores_ceil10_mean (db : DB) (bid : Nat) (b : Bootcamp)
    (hb : findBootcamp db bid = some b) (hne : tuitionsFor db bid ≠ []) :
    findBootcamp (getAverageCost db bid) bid =
      some { b with averageCost := some (ceilTo10 (listMean (tuitionsFor db bid))) } := by
  have hlen : (tuitionsFor db bid).length > 0 :=
    List.length_pos.mpr hne
  unfold findBootcamp at hb
  simp only [getAverageCost, setAverageCost, hlen, if_pos, findBootcamp]
  exact find_map_update
    (fun x => { x with averageCost := some (ceilTo10 (listMean (tuitionsFor db bid))) })
    (fun x => rfl) bid db.bootcamps b hb

/-- The bootcamp and its two courses of the spec's worked cost example. -/
def costExampleDB : DB :=
  { bootcamps := [{ id := 0, averageCost := none, averageRating := none }]
    courses := [{ id := 1, bootcamp := 0, tuition := 12 },
                { id := 2, bootcamp := 0, tuition := 18 }]
    reviews := [] }

/-- Witness for C2 at the spec's worked example: children with costs
[12, 18] have mean 15 and the stored aggregate is 20. -/
theorem getAverageCost_stores_ceil10_mean_witness :
    findBootcamp (getAverageCost costExampleDB 0) 0 =
      some { id := 0, averageCost := some 20, averageRating := none } := by
  have hts : tuitionsFor costExampleDB 0 = [12, 18] := rfl
  have hmean : listMean [(12 : ℚ), 18] = 15 := by norm_num [listMean]
  have hceil : ceilTo10 15 = 20 := by
    have hc : (⌈(15 : ℚ) / 10⌉ : ℤ) = 2 := by
      rw [Int.ceil_eq_iff]; norm_num
    rw [ceilTo10, hc]
    norm_num
  have h := getAverageCost_stores_ceil10_mean costExampleDB 0
      { id := 0, averageCost := none, averageRating := none } rfl
      (by rw [hts]; simp)
  rw [h, hts, hmean, hceil]

/-- C8: whenever the rating maintainer runs for a bootcamp with at least one
review, the stored `averageRating` is the exact arithmetic mean of the
children's ratings, with no rounding applied. -/
theorem getAverageRating_stores_raw_mean (db : DB) (bid : Nat) (b : Bootcamp)
    (hb : findBootcamp db bid = some b) (hne : ratingsFor db bid ≠ []) :
    findBootcamp (getAverageRating db bid) bid =
      some { b with averageRating := some (listMean (ratingsFor db bid)) } := by
  have hlen : (ratingsFor db bid).length > 0 :=
    List.length_pos.mpr hne
  unfold findBootcamp at hb
  simp only [getAverageRating, setAverageRating, hlen, if_pos, findBootcamp]
  exact find_map_update
    (fun x => { x with averageRating := some (listMean (ratingsFor db bid)) })
    (fun x => rfl) bid db.bootcamps b hb

/-- A bootcamp with two reviews rated 7 and 8: the mean 15/2 is not an
integer, so an unrounded store is observable. -/
def ratingExampleDB : DB :=
  { bootcamps := [{ id := 0, averageCost := none, averageRating := none }]
    courses := []
    reviews := [{ id := 1, bootcamp := 0, user := 4, title := "A", rating := 7 },
                { id := 2, bootcamp := 0, user := 5, title := "B", rating := 8 }] }

/-- Witness for C8: ratings [7, 8] store the raw mean 15/2, unrounded. -/
theorem getAverageRating_stores_raw_mean_witness :
    findBootcamp (getAverageRating ratingExampleDB 0) 0 =
      some { id := 0, averageCost := none, averageRating := some (15 / 2) } := by
  have hrs : ratingsFor ratingExampleDB 0 = [7, 8] := rfl
  have hmean : listMean [(7 : ℚ), 8] = 15 / 2 := by norm_num [listMean]
  have h := getAverageRating_stores_raw_mean ratingExampleDB 0
      { id := 0, averageCost := none, averageRating := none } rfl
      (by rw [hrs]; simp)
  rw [h, hrs, hmean]

/-- The one-bootcamp, initially course-less store of the C3 counterexample. -/
def lastRemovalDB : DB :=
  { bootcamps := [{ id := 0, averageCost := none, averageRating := none }]
    courses := []
    reviews := [] }

/-- The single course whose creation and removal exercises the
zero-children path. -/
def lastRemovalCourse : Course := { id := 1, bootcamp := 0, tuition := 50 }

/-- C3 counterexample: create one course (tuition 50) under a bootcamp and
then remove it. The sequence ends with zero children, yet the bootcamp's
`averageCost` afterwards is `some 50` — the stale mean written by the
`pre("remove")` recomputation (which still saw the course) — not absent as
the claim requires: the zero-children branch of the maintainer never unsets
the field. -/
theorem aggregate_absent_after_last_removal_cex :
    (removeCourse (createCourse lastRemovalDB lastRemovalCourse) 1).courses = [] ∧
    findBootcamp (removeCourse (createCourse lastRemovalDB lastRemovalCourse) 1) 0 =
      some { id := 0, averageCost := some 50, averageRating := none } := by
  have hc : (⌈(50 : ℚ) / 1 / 10⌉ : ℤ) = 5 := by
    rw [Int.ceil_eq_iff]; norm_num
  constructor
  · simp [removeCourse, createCourse, getAverageCost, tuitionsFor, setAverageCost,
      lastRemovalDB, lastRemovalCourse, List.filter, List.find?]
  · simp [removeCourse, createCourse, getAverageCost, tuitionsFor, setAverageCost,
      lastRemovalDB, lastRemovalCourse, List.filter, List.find?, findBootcamp,
      listMean, ceilTo10, hc]
    norm_num

/-- C3 as amended: when the maintainer runs with zero children it performs
no write at all — the store is returned unchanged — so the parent's
aggregate field is never set to zero, but it retains whatever value it last
had (possibly a stale previous mean) instead of being absent. -/
theorem aggregate_zero_children_noop (db : DB) (bid : Nat) :
    (tuitionsFor db bid = [] → getAverageCost db bid = db) ∧
    (ratingsFor db bid = [] → getAverageRating db bid = db) := by
  constructor
  · intro h
    simp [getAverageCost, h]
  · intro h
    simp [getAverageRating, h]

/-- A bootcamp still carrying aggregates although it has no children. -/
def staleAggregateDB : DB :=
  { bootcamps := [{ id := 0, averageCost := some 30, averageRating := some 4 }]
    courses := []
    reviews := [] }

/-- Witness for the amended C3: with zero children, both maintainers leave
the store — including the stale aggregates — exactly as it was. -/
theorem aggregate_zero_children_noop_witness :
    getAverageCost staleAggregateDB 0 = staleAggregateDB ∧
    getAverageRating staleAggregateDB 0 = staleAggregateDB :=
  ⟨(aggregate_zero_children_noop staleAggregateDB 0).1 rfl,
   (aggregate_zero_children_noop staleAggregateDB 0).2 rfl⟩

/-- The role-gate message is never the empty string, so the error
translator's `message || "Server Error"` fallback passes it through. -/
theorem roleMessage_ne_empty (role : String) :
    "User role " ++ role ++ " is not authorized to access this route" ≠ "" := by
  intro hEq
  have hlen := congrArg String.length hEq
  rw [String.length_append, String.length_append] at hlen
  have h10 : String.length "User role " = 10 := rfl
  have h0 : String.length "" = 0 := rfl
  rw [h10, h0] at hlen
  omega

/-- The error translator passes a plain `ErrorResponse` (generic `name`, no
driver code, explicit status, non-empty message) through unchanged. -/
theorem errorHandler_plain (sc : Nat) (msg : String) (hmsg : msg ≠ "") :
    errorHandler { name := "Error", code := none, statusCode := some sc
                   message := msg, valMessages := [] } =
      { status := sc, success := false, error := some (ErrMsg.str msg) } := by
  simp [errorHandler, msgOrDefault, hmsg]

/-- C5: every authenticated account whose role is outside the users route's
allow-list is rejected by the mounted role gate with status 403,
`success: false` and the message `User role <role> is not authorized to
access this route` built from that account's role. -/
theorem getUsers_role_gate_403 (user : AuthUser) (h : user.role ≠ "admin") :
    getUsersGate user =
      some { status := 403, success := false
             error := some (ErrMsg.str
               ("User role " ++ user.role ++
                 " is not authorized to access this route")) } := by
  have hc : (["admin"].contains user.role) = false := by
    simp [h]
  simp only [getUsersGate, authorize, hc, Bool.false_eq_true, if_false,
    Option.map_some']
  rw [errorHandler_plain 403 _ (roleMessage_ne_empty user.role)]

/-- Witness for C5 at a standard-role account: the exact message the tests
assert for role "user". -/
theorem getUsers_role_gate_403_witness :
    getUsersGate { id := 1, role := "user" } =
      some { status := 403, success := false
             error := some (ErrMsg.str
               "User role user is not authorized to access this route") } := by
  rw [getUsers_role_gate_403 { id := 1, role := "user" } (by decide)]
  decide

/-- C6: an update or delete attempt on a review by an authenticated account
that neither owns the review nor holds the administrator role fails with
HTTP 401 and message "Not authorized to access this route", and the store is
left unchanged by both operations. -/
theorem review_ownership_gate_401 (db : DB) (user : AuthUser) (rid : Nat)
    (r : Review) (title : String)
    (hr : db.reviews.find? (fun x => x.id == rid) = some r)
    (hown : user.id ≠ r.user) (hrole : user.role ≠ "admin") :
    updateReviewTitle db user rid title =
      ({ status := 401, success := false
         error := some (ErrMsg.str "Not authorized to access this route") }, db) ∧
    deleteReviewOp db user rid =
      ({ status := 401, success := false
         error := some (ErrMsg.str "Not authorized to access this route") }, db) := by
  have hgate : ownsOrAdmin user r.user = false := by
    simp [ownsOrAdmin, hown, hrole]
  constructor
  · simp only [updateReviewTitle, hr, hgate, Bool.false_eq_true, if_false]
    rfl
  · simp only [deleteReviewOp, hr, hgate, Bool.false_eq_true, if_false]
    rfl

/-- A store holding one review owned by account 5. -/
def ownershipDB : DB :=
  { bootcamps := [{ id := 0, averageCost := none, averageRating := none }]
    courses := []
    reviews := [{ id := 1, bootcamp := 0, user := 5, title := "Great", rating := 8 }] }

/-- Witness for C6: account 6 with role "user" can neither update nor delete
review 1 owned by account 5. -/
theorem review_ownership_gate_401_witness :
    updateReviewTitle ownershipDB { id := 6, role := "user" } 1 "Hacked" =
      ({ status := 401, success := false
         error := some (ErrMsg.str "Not authorized to access this route") }, ownershipDB) ∧
    deleteReviewOp ownershipDB { id := 6, role := "user" } 1 =
      ({ status := 401, success := false
         error := some (ErrMsg.str "Not authorized to access this route") }, ownershipDB) :=
  review_ownership_gate_401 ownershipDB { id := 6, role := "user" } 1
    { id := 1, bootcamp := 0, user := 5, title := "Great", rating := 8 } "Hacked"
    rfl (by decide) (by decide)

/-- C7: with no prior review by the pair, a first review inserts
successfully; a second review by the same (account, bootcamp) pair is
rejected by the unique index with the duplicate-key error, which the error
middleware renders as `success: false` with message exactly "Duplicate field
value entered" (status 400 in this contract); and the first review remains
the only stored review by that pair. -/
theorem duplicate_review_conflict (db : DB) (r1 r2 : Review)
    (hb : r2.bootcamp = r1.bootcamp) (hu : r2.user = r1.user)
    (hfresh : db.reviews.any
      (fun x => x.bootcamp == r1.bootcamp && x.user == r1.user) = false) :
    ∃ db1 : DB,
      insertReview db r1 = Except.ok db1 ∧
      insertReview db1 r2 = Except.error dupKeyError ∧
      errorHandler dupKeyError =
        { status := 400, success := false
          error := some (ErrMsg.str "Duplicate field value entered") } ∧
      db1.reviews.filter
        (fun x => x.bootcamp == r1.bootcamp && x.user == r1.user) = [r1] := by
  refine ⟨getAverageRating { db with reviews := db.reviews ++ [r1] } r1.bootcamp,
    ?_, ?_, rfl, ?_⟩
  · simp [insertReview, hfresh]
  · simp [insertReview, hb, hu, getAverageRating_reviews, List.any_append, hfresh]
  · have hall := List.any_eq_false.mp hfresh
    rw [getAverageRating_reviews, List.filter_append]
    have h1 : db.reviews.filter
        (fun x => x.bootcamp == r1.bootcamp && x.user == r1.user) = [] :=
      List.filter_eq_nil_iff.mpr hall
    rw [h1]
    simp

/-- A store with a bootcamp and no reviews yet. -/
def duplicateDB : DB :=
  { bootcamps := [{ id := 0, averageCost := none, averageRating := none }]
    courses := []
    reviews := [] }

/-- The first review account 5 submits against bootcamp 0. -/
def firstReview : Review :=
  { id := 1, bootcamp := 0, user := 5, title := "Great", rating := 8 }

/-- A second review by the same account against the same bootcamp. -/
def secondReview : Review :=
  { id := 2, bootcamp := 0, user := 5, title := "Again", rating := 9 }

/-- Witness for C7: the concrete duplicate submission of the tests. -/
theorem duplicate_review_conflict_witness :
    ∃ db1 : DB,
      insertReview duplicateDB firstReview = Except.ok db1 ∧
      insertReview db1 secondReview = Except.error dupKeyError ∧
      errorHandler dupKeyError =
        { status := 400, success := false
          error := some (ErrMsg.str "Duplicate field value entered") } ∧
      db1.reviews.filter
        (fun x => x.bootcamp == firstReview.bootcamp && x.user == firstReview.user) =
          [firstReview] :=
  duplicate_review_conflict duplicateDB firstReview secondReview rfl rfl rfl

end SkillBridge
